import Mathlib

/-!
Verification of the Conversation Orchestration Core of `bot.py` (a Telegram
coaching bot).  The Python source is shallowly embedded below: pure helper
functions become Lean functions, the per-user record becomes a structure,
file-system and model-service effects become explicit parameters
(`Option`-valued stored content, a `complete` function returning `Except`),
and a Python exception that escapes a function is modelled by the function
returning `Except.error`.
-/

/-- A conversation turn, i.e. one `{"role": ..., "content": ...}` dictionary
as stored in the per-user JSON record and as sent to the model service. -/
structure Turn where
  role : String
  content : String
deriving DecidableEq, Repr

/-- The per-user record persisted by `save_user_data` and read by
`load_user_data`: `{"first_name": string | null, "history": [Turn, ...]}`. -/
structure UserRecord where
  first_name : Option String
  history : List Turn
deriving DecidableEq, Repr

/-- Result value of a python-telegram-bot conversation callback:
`ConversationHandler.END`, the onboarding state `ASKING_NAME` (= 1), or the
plan-wizard stub state `ASKING_PLAN_TYPE` (= 2). -/
inductive ConvResult where
  | END
  | ASKING_NAME
  | ASKING_PLAN_TYPE
deriving DecidableEq, Repr

/-- `CONVERSATION_MEMORY_LENGTH = 12` (bot.py line 51). -/
def CONVERSATION_MEMORY_LENGTH : Nat := 12

/-- The consolidated `SYSTEM_PROMPT` string of bot.py lines 67-90 (a Python
triple-quoted string beginning and ending with a newline).  Apostrophes are
written with the `\x27` escape; the text is otherwise verbatim. -/
def SYSTEM_PROMPT : String :=
  "\n# CORE IDENTITY\nYour name is Atom. You are an expert AI assistant and a world-class human performance coach.\n\n"
  ++ "# PERSONALITY\nYour persona is that of a super-smart, friendly, and slightly witty fitness and nutrition nerd. You are the best training partner someone could ask for: knowledgeable, encouraging, casual, and down-to-earth. You break down complex topics with ease and a touch of reliable humor.\n\n"
  ++ "# EXPERTISE & SPECIALIZATIONS\nYour knowledge is strictly evidence-based. You have three specializations:\n"
  ++ "1.  **Strength & Conditioning Specialist:** You design workout programs based on user goals (e.g., fat loss, muscle gain, strength, power) and experience level.\n"
  ++ "2.  **Sports Nutritionist:** You create personalized diet plans by calculating BMR/TDEE and catering to dietary preferences and allergies. You can provide food substitutions.\n"
  ++ "3.  **Wellness & Habit Coach:** You use principles from the Cognitive Behavioral Therapy (CBT) framework to help users build sustainable habits and overcome mental blocks.\n\n"
  ++ "# CRITICAL INTERACTION PROTOCOLS (Non-Negotiable)\n\n"
  ++ "1.  **Name Protocol:** If asked your name (\"what is your name?\", \"who are you?\"), your ONLY response is: \"I am Atom!\"\n"
  ++ "2.  **Creator Protocol (Progressive Disclosure):** Do not volunteer who made you. If asked (\"who made you?\", \"who trained you?\"), your ONLY response is: \"I am an AI assistant trained by Viraj to help you with your fitness, nutrition, and wellness goals.\"\n"
  ++ "3.  **Plan Protocol:** If a user asks for a diet or workout plan, you MUST state that you need to ask some questions first to create a personalized plan. DO NOT provide a generic plan. Instead, suggest they use the /create_plan command.\n"
  ++ "4.  **Username Protocol:** You are communicating with {user_name}. Use their name VERY SPARINGLY, only for significant moments of encouragement. Never start a reply with their name. Overusing it is a major failure.\n"
  ++ "5.  **Evidence Protocol:** Your advice is science-based, but you must be \"chill\" about it. DO NOT cite studies or share reference links unless the user explicitly asks for them.\n"
  ++ "6.  **Formatting Protocol:** Use markdown for clarity (*bold* headings, bullet points •). DO NOT use horizontal lines (--- or ___).\n"
  ++ "7.  **Safety Protocol:** ALWAYS preface specific exercise or diet plans with a clear, friendly disclaimer. Example: \"Just a heads-up, before you jump into any new fitness or nutrition plan, it\x27s always a smart move to check in with a healthcare pro to make sure it\x27s a good fit for you.\"\n"
  ++ "8.  **Privacy Protocol:** If asked how you remember things, your ONLY response is: \"I save our conversation history to provide context for our chats, just like a human coach would remember past sessions. This helps me give you better, more relevant advice. Your privacy is taken very seriously, and your data is never shared.\"\n"

/-- Embedding of `load_user_data(user_id)` (bot.py lines 38-43).  The file
system is modelled by the content of the user's record file:
`none` = the file does not exist (`os.path.exists` is false);
`some none` = the file exists but holds data `json.load` cannot parse
(`json.load` raises `json.JSONDecodeError`);
`some (some r)` = the file exists and parses to the record `r`.
The Python function has no `try`/`except`, so a parse error escapes it:
that is the `Except.error` case.  The missing-file case returns the default
record `{"first_name": None, "history": []}`. -/
def load_user_data (file : Option (Option UserRecord)) : Except String UserRecord :=
  match file with
  | some (some r) => Except.ok r
  | some none => Except.error "json.JSONDecodeError"
  | none => Except.ok { first_name := none, history := [] }

/-- The truthiness test `user_data.get("first_name")` used by `start`
(line 99) and `handle_message` (line 139): a Python string is falsy exactly
when it is empty, and `get` returns `None` (falsy) when the key holds null. -/
def firstNameTruthy (rec : UserRecord) : Bool :=
  match rec.first_name with
  | none => false
  | some s => s != ""

/-- Embedding of `start(update, context)` (bot.py lines 95-106), applied to
the record `load_user_data` returned for the user.  Result: the text replied
to the user, the record passed to `save_user_data` (`none`: `start` never
saves), and the conversation-handler return value. -/
def start (rec : UserRecord) : String × Option UserRecord × ConvResult :=
  if firstNameTruthy rec then
    ("Hey " ++ rec.first_name.getD "" ++ ", welcome back! What\x27s on your mind today?",
     none, ConvResult.END)
  else
    ("Welcome! I\x27m your evidence-based AI Coach for all things fitness, nutrition, and habit-building. May I know your first name?",
     none, ConvResult.ASKING_NAME)

/-- Embedding of Python's `str.strip()` (no argument): remove all leading
and trailing whitespace characters. -/
def strip (s : String) : String :=
  String.mk (((s.data.dropWhile Char.isWhitespace).reverse.dropWhile
    Char.isWhitespace).reverse)

/-- Embedding of `received_name(update, context)` (bot.py lines 108-118),
reached in state `ASKING_NAME` on non-command text (`update.message.text`).
Result: the record passed to `save_user_data`, the reply text, and the
conversation-handler return value (`ConversationHandler.END`). -/
def received_name (text : String) : UserRecord × String × ConvResult :=
  let name := strip text
  ({ first_name := some name, history := [] },
   "Nice to meet you, " ++ name ++ "! How can I help you today?",
   ConvResult.END)

/-- The leading system message built by `get_ai_response_with_context`
(bot.py line 123). -/
def system_message (user_name : String) : Turn :=
  { role := "system",
    content := "You are communicating with a user named " ++ user_name ++ ". " ++ SYSTEM_PROMPT }

/-- Embedding of `get_ai_response_with_context(history, user_name)`
(bot.py lines 120-133).  The external Groq chat-completion call is the
parameter `complete`; `Except.error` models the call raising any exception,
which the `try`/`except` of lines 125-133 converts into the fixed fallback
string. -/
def get_ai_response_with_context (complete : List Turn → Except String String)
    (history : List Turn) (user_name : String) : String :=
  let messages_to_send := system_message user_name :: history
  match complete messages_to_send with
  | Except.ok t => t
  | Except.error _ =>
      "Apologies, my systems are under a bit of strain right now. Please try your query again in a moment."

/-- The Python slice `l[-CONVERSATION_MEMORY_LENGTH:]` (bot.py line 147):
the last 12 elements of the list (all of them when fewer exist). -/
def window (history : List Turn) : List Turn :=
  history.drop (history.length - CONVERSATION_MEMORY_LENGTH)

/-- Shorthand for the turn `{"role": "user", "content": msg}` appended at
bot.py line 145. -/
def userTurn (msg : String) : Turn := { role := "user", content := msg }

/-- Shorthand for the turn `{"role": "assistant", "content": t}` appended at
bot.py line 149. -/
def assistantTurn (t : String) : Turn := { role := "assistant", content := t }

/-- The turn list handed to `get_ai_response_with_context` by
`handle_message` (bot.py lines 145-148): the new user turn is appended to
the persisted history first, then the last 12 turns of the extended list
are taken. -/
def messagesForModel (rec : UserRecord) (user_message : String) : List Turn :=
  window (rec.history ++ [userTurn user_message])

/-- Embedding of `handle_message(update, context)` (bot.py lines 135-152),
applied to the record `load_user_data` returned and the message text.
Result: the text replied to the user, and the record passed to
`save_user_data` (`none` when the guard of lines 139-141 replies and
returns without saving). -/
def handle_message (complete : List Turn → Except String String)
    (rec : UserRecord) (user_message : String) : String × Option UserRecord :=
  if firstNameTruthy rec then
    let ai_response :=
      get_ai_response_with_context complete (messagesForModel rec user_message)
        (rec.first_name.getD "")
    let history2 := (rec.history ++ [userTurn user_message]) ++ [assistantTurn ai_response]
    (ai_response, some { rec with history := history2 })
  else
    ("Welcome! Please use the /start command to set up your profile first.", none)

/-- History well-formedness of claim C7: even length, alternating roles
starting with `user`. -/
def wellFormed : List Turn → Bool
  | [] => true
  | [_] => false
  | u :: a :: rest => u.role == "user" && a.role == "assistant" && wellFormed rest

/-- A concrete record with exactly 12 persisted turns, used for the window
boundary. -/
def rec12 : UserRecord :=
  { first_name := some "Alex",
    history :=
      [userTurn "u1", assistantTurn "a1", userTurn "u2", assistantTurn "a2",
       userTurn "u3", assistantTurn "a3", userTurn "u4", assistantTurn "a4",
       userTurn "u5", assistantTurn "a5", userTurn "u6", assistantTurn "a6"] }

theorem wellFormed_append (u a : Turn) (hu : u.role = "user") (ha : a.role = "assistant") :
    ∀ l : List Turn, wellFormed l = true → wellFormed (l ++ [u, a]) = true
  | [], _ => by simp [wellFormed, hu, ha]
  | [x], h => by simp [wellFormed] at h
  | x :: y :: rest, h => by
      simp only [wellFormed, Bool.and_eq_true, beq_iff_eq] at h
      simpa only [List.cons_append, wellFormed, Bool.and_eq_true, beq_iff_eq, h.1.1, h.1.2,
        true_and] using wellFormed_append u a hu ha rest h.2

/-- Claim C3: if the model-service call raises any error on the compiled
message sequence, `get_ai_response_with_context` returns the fixed fallback
string (and, being a total function, never propagates the error). -/
theorem claim_C3 (complete : List Turn → Except String String) (history : List Turn)
    (user_name e : String)
    (h : complete (system_message user_name :: history) = Except.error e) :
    get_ai_response_with_context complete history user_name =
      "Apologies, my systems are under a bit of strain right now. Please try your query again in a moment." := by
  simp [get_ai_response_with_context, h]

/-- Witness for C3 at a concrete failing service and input. -/
theorem claim_C3_witness :
    get_ai_response_with_context (fun _ => Except.error "network error")
        [userTurn "hi"] "Alex" =
      "Apologies, my systems are under a bit of strain right now. Please try your query again in a moment." :=
  claim_C3 (fun _ => Except.error "network error") [userTurn "hi"] "Alex" "network error" rfl

/-- Claim C1, counterexample: for a user with exactly 12 persisted turns who
sends a new message, the turn list passed to the persona/protocol compiler
has length 12, not the 13 the claim states: the slice of bot.py line 147 is
taken after the new user turn is appended. -/
theorem claim_C1_counterexample :
    (messagesForModel rec12 "m13").length ≠ 13 := by decide

/-- Claim C1 as amended: the new user turn is appended to the persisted
history first and the last 12 turns of the extended list are passed to the
compiler, so for a user with at least 12 persisted turns the compiler
receives exactly 12 turns: the 11 most recent persisted turns followed by
the new user turn (the system instruction is then prepended by
`get_ai_response_with_context`). -/
theorem claim_C1_amended (rec : UserRecord) (msg : String)
    (h : 12 ≤ rec.history.length) :
    messagesForModel rec msg =
      rec.history.drop (rec.history.length - 11) ++ [userTurn msg] ∧
    (messagesForModel rec msg).length = 12 := by
  have h1 : rec.history.length + 1 - 12 = rec.history.length - 11 := by omega
  have h2 : rec.history.length + 1 - 12 - rec.history.length = 0 := by omega
  constructor
  · simp [messagesForModel, window, CONVERSATION_MEMORY_LENGTH,
      List.drop_append_eq_append_drop, h1, h2]
  · simp [messagesForModel, window, CONVERSATION_MEMORY_LENGTH]
    omega

/-- Witness for the amended C1 at the concrete 12-turn record. -/
theorem claim_C1_amended_witness :
    12 ≤ rec12.history.length ∧
    (messagesForModel rec12 "m13" =
       rec12.history.drop (rec12.history.length - 11) ++ [userTurn "m13"] ∧
     (messagesForModel rec12 "m13").length = 12) :=
  ⟨by decide, claim_C1_amended rec12 "m13" (by decide)⟩

/-- Claim C2, counterexample: when the record file exists but holds data
`json.load` cannot parse, `load_user_data` does not return the default
record — the parse error escapes the function (there is no `try`/`except`
in bot.py lines 38-43). -/
theorem claim_C2_counterexample :
    load_user_data (some none) = Except.error "json.JSONDecodeError" := rfl

/-- Claim C2 as amended: `load_user_data` returns the default record
`{first_name: None, history: []}` when the file is missing and the stored
record when it parses, but a file with corrupt (non-JSON) data makes the
`json.load` error propagate out of the load uncaught. -/
theorem claim_C2_amended :
    load_user_data none = Except.ok { first_name := none, history := [] } ∧
    (∀ r : UserRecord, load_user_data (some (some r)) = Except.ok r) ∧
    (∀ d : UserRecord,
      load_user_data (some none) ≠ Except.ok d) := by
  refine ⟨rfl, fun r => rfl, fun d h => ?_⟩
  simp [load_user_data] at h

/-- Claim C4: the context-window slice has length `min L 12`, consists of
the last `min L 12` elements of the history in their original order, and
the record that `handle_message` persists keeps the full history (the
window is applied only when building the model request). -/
theorem claim_C4 (h : List Turn) (complete : List Turn → Except String String)
    (rec : UserRecord) (msg : String) (hname : firstNameTruthy rec = true) :
    (window h).length = min h.length 12 ∧
    h.take (h.length - 12) ++ window h = h ∧
    (handle_message complete rec msg).2 =
      some { rec with history :=
        rec.history ++ [userTurn msg,
          assistantTurn (handle_message complete rec msg).1] } := by
  refine ⟨?_, ?_, ?_⟩
  · simp [window, CONVERSATION_MEMORY_LENGTH]
    omega
  · simp [window, CONVERSATION_MEMORY_LENGTH]
  · simp [handle_message, hname]

/-- Witness for C4 at concrete history, record and failing service. -/
theorem claim_C4_witness :
    (window [userTurn "x"]).length = min [userTurn "x"].length 12 ∧
    [userTurn "x"].take ([userTurn "x"].length - 12) ++ window [userTurn "x"] =
      [userTurn "x"] ∧
    (handle_message (fun _ => Except.error "down")
        { first_name := some "Alex", history := [] } "hi").2 =
      some { first_name := some "Alex", history :=
        [userTurn "hi",
         assistantTurn (handle_message (fun _ => Except.error "down")
           { first_name := some "Alex", history := [] } "hi").1] } :=
  claim_C4 [userTurn "x"] (fun _ => Except.error "down")
    { first_name := some "Alex", history := [] } "hi" (by decide)

/-- Claim C5: when the model-service call throws while handling an
active-chat message from an onboarded user, the user receives exactly the
fixed apology string and the persisted history grows by exactly two turns:
the user's message as a user turn followed by the fallback text as the
assistant turn. -/
theorem claim_C5 (complete : List Turn → Except String String)
    (rec : UserRecord) (msg e : String)
    (hname : firstNameTruthy rec = true)
    (hfail : complete (system_message (rec.first_name.getD "") ::
        messagesForModel rec msg) = Except.error e) :
    handle_message complete rec msg =
      ("Apologies, my systems are under a bit of strain right now. Please try your query again in a moment.",
       some { rec with history := rec.history ++
         [userTurn msg,
          assistantTurn "Apologies, my systems are under a bit of strain right now. Please try your query again in a moment."] }) := by
  simp [handle_message, hname, get_ai_response_with_context, hfail]

/-- Witness for C5 at a concrete onboarded record and failing service. -/
theorem claim_C5_witness :
    firstNameTruthy { first_name := some "Alex", history := [] } = true ∧
    handle_message (fun _ => Except.error "boom")
        { first_name := some "Alex", history := [] } "hello" =
      ("Apologies, my systems are under a bit of strain right now. Please try your query again in a moment.",
       some { first_name := some "Alex", history :=
         [userTurn "hello",
          assistantTurn "Apologies, my systems are under a bit of strain right now. Please try your query again in a moment."] }) :=
  ⟨by decide,
   claim_C5 (fun _ => Except.error "boom")
     { first_name := some "Alex", history := [] } "hello" "boom" (by decide) rfl⟩

/-- Claim C6: in `AWAITING_NAME`, the incoming text is trimmed of
surrounding whitespace, the full trimmed text becomes the name, the record
`{first_name: name, history: []}` is the one persisted, the confirmation
reply mentions the name, and the handler returns `ConversationHandler.END`
(active chat). -/
theorem claim_C6 (text : String) :
    received_name text =
      ({ first_name := some (strip text), history := [] },
       "Nice to meet you, " ++ strip text ++ "! How can I help you today?",
       ConvResult.END) := rfl

/-- Claim C7: both persistence sites keep the history well formed
(alternating roles starting with `user`, hence even length): onboarding
persists the empty history, and a completed `handle_message` exchange
appends exactly one user turn followed by one assistant turn. -/
theorem claim_C7 (text : String) (complete : List Turn → Except String String)
    (rec : UserRecord) (msg : String) (saved : UserRecord)
    (hwf : wellFormed rec.history = true)
    (hsave : (handle_message complete rec msg).2 = some saved) :
    wellFormed (received_name text).1.history = true ∧
    wellFormed saved.history = true := by
  constructor
  · rfl
  · by_cases hname : firstNameTruthy rec = true
    · simp only [handle_message, hname, if_true, Option.some.injEq] at hsave
      have hhist : saved.history =
          (rec.history ++ [userTurn msg]) ++
            [assistantTurn (get_ai_response_with_context complete
              (messagesForModel rec msg) (rec.first_name.getD ""))] := by
        rw [← hsave]
      rw [hhist, List.append_assoc]
      exact wellFormed_append _ _ rfl rfl rec.history hwf
    · simp [handle_message, hname] at hsave

/-- Witness for C7 at a concrete onboarded record with empty history. -/
theorem claim_C7_witness :
    wellFormed ({ first_name := some "Alex", history := [] } : UserRecord).history = true ∧
    (handle_message (fun _ => Except.error "boom")
        { first_name := some "Alex", history := [] } "hi").2 =
      some { first_name := some "Alex", history :=
        [userTurn "hi",
         assistantTurn "Apologies, my systems are under a bit of strain right now. Please try your query again in a moment."] } ∧
    (wellFormed (received_name "Alex").1.history = true ∧
     wellFormed ({ first_name := some "Alex", history :=
       [userTurn "hi",
        assistantTurn "Apologies, my systems are under a bit of strain right now. Please try your query again in a moment."] } : UserRecord).history = true) :=
  ⟨by decide, by decide,
   claim_C7 "Alex" (fun _ => Except.error "boom")
     { first_name := some "Alex", history := [] } "hi" _ (by decide) (by decide)⟩

/-- Claim C8: `/start` for a user whose record holds a (non-empty, hence
truthy) first name replies with the welcome-back message containing that
name, saves nothing, and returns `ConversationHandler.END` — an idempotent
short-circuit that leaves the persisted record untouched. -/
theorem claim_C8 (rec : UserRecord) (n : String)
    (h1 : rec.first_name = some n) (h2 : n ≠ "") :
    start rec =
      ("Hey " ++ n ++ ", welcome back! What\x27s on your mind today?",
       none, ConvResult.END) := by
  simp [start, firstNameTruthy, h1, h2]

/-- Witness for C8 at a concrete onboarded record. -/
theorem claim_C8_witness :
    start { first_name := some "Alex", history := [userTurn "q", assistantTurn "r"] } =
      ("Hey " ++ "Alex" ++ ", welcome back! What\x27s on your mind today?",
       none, ConvResult.END) :=
  claim_C8 { first_name := some "Alex", history := [userTurn "q", assistantTurn "r"] }
    "Alex" rfl (by decide)

/-- Claim C9: a non-command text message for a record whose first name is
missing (falsy) produces only the corrective re-onboarding reply: the
result is the same for every model service (no model call can influence
it), nothing is saved, and the total function cannot crash. -/
theorem claim_C9 (complete : List Turn → Except String String)
    (rec : UserRecord) (msg : String)
    (h : firstNameTruthy rec = false) :
    handle_message complete rec msg =
      ("Welcome! Please use the /start command to set up your profile first.", none) := by
  simp [handle_message, h]

/-- Witness for C9 at the default (never-onboarded) record. -/
theorem claim_C9_witness :
    handle_message (fun _ => Except.ok "model text")
        { first_name := none, history := [] } "hello" =
      ("Welcome! Please use the /start command to set up your profile first.", none) :=
  claim_C9 (fun _ => Except.ok "model text")
    { first_name := none, history := [] } "hello" (by decide)

/-- Claim C10: a whitespace-only name message trims to the empty string,
the record `{first_name: "", history: []}` is persisted with the
confirmation sent, and — because `start` and `handle_message` test
`first_name` for truthiness rather than for non-None — such a user is
afterwards treated as not onboarded by both handlers even though the stored
first name is not null. -/
theorem claim_C10 (text : String) (h : strip text = "") :
    (received_name text).1 = { first_name := some "", history := [] } ∧
    (received_name text).1.first_name ≠ none ∧
    (received_name text).2.1 = "Nice to meet you, ! How can I help you today?" ∧
    (∀ hist : List Turn,
      start { first_name := some "", history := hist } =
        ("Welcome! I\x27m your evidence-based AI Coach for all things fitness, nutrition, and habit-building. May I know your first name?",
         none, ConvResult.ASKING_NAME)) ∧
    (∀ (complete : List Turn → Except String String) (msg : String) (hist : List Turn),
      handle_message complete { first_name := some "", history := hist } msg =
        ("Welcome! Please use the /start command to set up your profile first.", none)) := by
  refine ⟨?_, ?_, ?_, ?_, ?_⟩
  · simp [received_name, h]
  · simp [received_name]
  · simp [received_name, h]
  · intro hist
    simp [start, firstNameTruthy]
  · intro complete msg hist
    simp [handle_message, firstNameTruthy]

/-- Witness for C10 at the concrete whitespace-only message. -/
theorem claim_C10_witness :
    (strip "   " = "") ∧
    ((received_name "   ").1 = { first_name := some "", history := [] } ∧
     (received_name "   ").1.first_name ≠ none ∧
     (received_name "   ").2.1 = "Nice to meet you, ! How can I help you today?" ∧
     (∀ hist : List Turn,
       start { first_name := some "", history := hist } =
         ("Welcome! I\x27m your evidence-based AI Coach for all things fitness, nutrition, and habit-building. May I know your first name?",
          none, ConvResult.ASKING_NAME)) ∧
     (∀ (complete : List Turn → Except String String) (msg : String) (hist : List Turn),
       handle_message complete { first_name := some "", history := hist } msg =
         ("Welcome! Please use the /start command to set up your profile first.", none))) :=
  ⟨by decide, claim_C10 "   " (by decide)⟩
